import Mathlib

/-!
Verification of the QQ Music catalog client (`src/qq_music_api`).

This file gives a shallow embedding of the pure parts of the client:
the domain model (`models.py`), the quality-tier table (`config.py`),
and the response-processing logic of each catalog operation
(`client.py`).  Network legs are outside the embedding: each operation
is modelled as a function of the already-decoded upstream response,
passed in as a typed structure whose `Option` fields mirror the
Python dictionary `.get` accesses.  A Python `KeyError`/`IndexError`
raised during processing is modelled as `none` in an `Option` result.
-/

set_option maxHeartbeats 1000000

/-! ## Domain model (`models.py`)

Each pydantic model becomes a structure whose field defaults are the
pydantic `Field(default=...)` values.  Canonical field names are used
(the upstream-alias names of `models.py` appear only in comments). -/

/-- `models.Singer`: id=0, mid="", name="". -/
structure Singer where
  id : Int := 0
  mid : String := ""
  name : String := ""
deriving DecidableEq, Repr

/-- `models.SongFile`: the quality ledger, seven per-tier byte sizes,
each defaulting to 0 (aliases size_96aac, size_128mp3, size_320mp3,
size_flac, size_ape, size_hires, size_dolby). -/
structure SongFile where
  size_m4a : Int := 0
  size_128 : Int := 0
  size_320 : Int := 0
  size_flac : Int := 0
  size_ape : Int := 0
  size_hires : Int := 0
  size_atmos : Int := 0
deriving DecidableEq, Repr

/-- `models.SongFile.available_qualities`: start from an empty list and
append each tier name whose size is strictly positive, in source order. -/
def SongFile.available_qualities (f : SongFile) : List String :=
  let qualities : List String := []
  let qualities := if f.size_m4a > 0 then qualities ++ ["m4a"] else qualities
  let qualities := if f.size_128 > 0 then qualities ++ ["128"] else qualities
  let qualities := if f.size_320 > 0 then qualities ++ ["320"] else qualities
  let qualities := if f.size_flac > 0 then qualities ++ ["flac"] else qualities
  let qualities := if f.size_ape > 0 then qualities ++ ["ape"] else qualities
  let qualities := if f.size_hires > 0 then qualities ++ ["hires"] else qualities
  let qualities := if f.size_atmos > 0 then qualities ++ ["atmos"] else qualities
  qualities

/-- `models.Song`: canonical names for songid/songmid/songname/albumid/
albummid/albumname/singer/interval/pay_play/file.  The `file` field is
declared `SongFile | None = None` in the source: it defaults to absent. -/
structure Song where
  id : Int := 0
  mid : String := ""
  name : String := ""
  album_id : Int := 0
  album_mid : String := ""
  album_name : String := ""
  singers : List Singer := []
  duration : Int := 0
  pay_play : Int := 0
  file : Option SongFile := none
deriving DecidableEq, Repr

/-- `models.Song.available_qualities`: `if self.file:` is a presence
test (a pydantic model instance is always truthy, `None` is falsy). -/
def Song.available_qualities (s : Song) : List String :=
  match s.file with
  | some f => f.available_qualities
  | none => []

/-- `models.Album` (aliases albumid/albummid/albumname/singer/aDate/
desc/total_song_num). -/
structure Album where
  id : Int := 0
  mid : String := ""
  name : String := ""
  singers : List Singer := []
  publish_date : String := ""
  desc : String := ""
  song_count : Int := 0
deriving DecidableEq, Repr

/-- `models.Playlist` (aliases dissid/dissname/imgurl/creator/listennum/
song_count). -/
structure Playlist where
  id : Int := 0
  name : String := ""
  cover : String := ""
  creator : String := ""
  listen_count : Int := 0
  song_count : Int := 0
deriving DecidableEq, Repr

/-- `models.MV` (aliases mv_name/singer_list/mv_pic_url/play_cnt). -/
structure MV where
  vid : String := ""
  name : String := ""
  singers : List Singer := []
  cover : String := ""
  play_count : Int := 0
  duration : Int := 0
deriving DecidableEq, Repr

/-- `models.Lyric`: original lyric and translation, both default "". -/
structure Lyric where
  lyric : String := ""
  trans : String := ""
deriving DecidableEq, Repr

/-- `models.SearchResult` (aliases totalnum/curpage/curnum/list).  Note
the non-zero defaults: `page` defaults to 1 and `page_size` to 20. -/
structure SearchResult where
  keyword : String := ""
  total : Int := 0
  page : Int := 1
  page_size : Int := 20
  songs : List Song := []
deriving DecidableEq, Repr

/-- `models.SongUrl`: a playback locator. -/
structure SongUrl where
  mid : String := ""
  url : String := ""
  quality : String := ""
  size : Int := 0
deriving DecidableEq, Repr

/-! ## Quality resolver (`config.py`) -/

/-- An entry of the `QUALITY_TYPE` table: upstream filename prefix and
extension.  (`pfx` stands for the source dictionary key spelled like
the English word for a leading string, which is a reserved token in
Lean.) -/
structure QualityInfo where
  pfx : String
  ext : String
deriving DecidableEq, Repr

/-- `config.QUALITY_TYPE`, as an association list in source order. -/
def QUALITY_TYPE : List (String × QualityInfo) :=
  [("m4a", ⟨"C400", "m4a"⟩),
   ("128", ⟨"M500", "mp3"⟩),
   ("320", ⟨"M800", "mp3"⟩),
   ("flac", ⟨"F000", "flac"⟩),
   ("ape", ⟨"A000", "ape"⟩),
   ("hires", ⟨"RS01", "flac"⟩),
   ("atmos", ⟨"Q001", "flac"⟩)]

/-- The value of `QUALITY_TYPE["128"]` (the fallback used by
`get_song_url`); `quality_type_128` below checks it against the table. -/
def q128 : QualityInfo := ⟨"M500", "mp3"⟩

/-- `client.get_song_url` line 302:
`QUALITY_TYPE.get(quality, QUALITY_TYPE["128"])`. -/
def resolveQuality (q : String) : QualityInfo :=
  (QUALITY_TYPE.lookup q).getD q128

theorem quality_type_128 : QUALITY_TYPE.lookup "128" = some q128 := by rfl

/-- `client.get_song_url` line 317:
`[f"(qprefix)(mid)(mid).(qext)" for mid in song_mids]` (an f-string
concatenating the resolved tier data around the doubled identifier). -/
def buildFilenames (q : String) (song_mids : List String) : List String :=
  let info := resolveQuality q
  song_mids.map (fun mid => info.pfx ++ mid ++ mid ++ "." ++ info.ext)

/-- `config.ALBUM_COVER_URL` applied via Python `str.format`, as done by
`client.get_album_cover`: the template
`https://y.qq.com/music/photo_new/T002R(size)x(size)M000(albummid).jpg`
with `size` substituted twice and `albummid` once; `size` defaults
to 300 in the source signature. -/
def get_album_cover (album_mid : String) (size : Int := 300) : String :=
  "https://y.qq.com/music/photo_new/T002R" ++ toString size ++ "x"
    ++ toString size ++ "M000" ++ album_mid ++ ".jpg"

/-! ## JSONP unwrapping (`client._request`, lines 85-92)

The adapter checks whether the response text begins with `callback(`
or `MusicJsonCallback(` and, if so, runs
`re.search` for a left parenthesis, a brace-delimited group matched by
a greedy dot-all `.*`, and a right parenthesis, replacing the text with
the captured group when a match is found. -/

/-- Python `str.startswith`, on the character-list view of a string. -/
def startsWith (t p : String) : Bool :=
  p.data.isPrefixOf t.data

/-- Helper for the greedy capture: scanning the reversed tail, drop
characters until the first occurrence of a right parenthesis directly
followed by a closing brace (i.e. the LAST occurrence, in the original
text, of a closing brace directly followed by a right parenthesis), and
return what remains (the reversed group interior). -/
def dropToParenBrace : List Char → Option (List Char)
  | ')' :: '}' :: rest => some rest
  | _ :: rest => dropToParenBrace rest
  | [] => none

/-- Greedy group capture at a match start: `after` is the text following
the left parenthesis and the opening brace; the captured group is the
opening brace, the longest interior ending before a closing brace that
is directly followed by a right parenthesis, and that closing brace. -/
def greedyGroup (after : List Char) : Option (List Char) :=
  match dropToParenBrace after.reverse with
  | some revMid => some ('{' :: revMid.reverse ++ ['}'])
  | none => none

/-- `re.search` for the pattern used in `_request`: try each start
position from the left; a match needs a left parenthesis directly
followed by an opening brace and, later, a closing brace directly
followed by a right parenthesis; the greedy dot-all interior picks the
last such closer.  Returns the captured group. -/
def reSearchParenGroup : List Char → Option (List Char)
  | [] => none
  | c :: rest =>
    if c = '(' then
      match rest with
      | '{' :: rest2 =>
        match greedyGroup rest2 with
        | some g => some g
        | none => reSearchParenGroup rest
      | _ => reSearchParenGroup rest
    else reSearchParenGroup rest

/-- The JSONP-unwrapping step of `client._request` (lines 85-91): the
text is replaced by the captured group only when it starts with one of
the two callback markers and the pattern matches; otherwise it is left
unchanged (and then handed to the JSON parser as-is). -/
def jsonp_unwrap (text : String) : String :=
  if startsWith text "callback(" || startsWith text "MusicJsonCallback(" then
    match reSearchParenGroup text.data with
    | some g => String.mk g
    | none => text
  else text

/-! ## Base64 and UTF-8 decoding (`client.get_lyric`)

`base64.b64decode` in its default non-strict mode: the input string is
ASCII-encoded (failing on any character above 127), characters outside
the standard alphabet are discarded, quads of data characters emit
three bytes, a padding sequence completing a quad of two or three data
characters emits the partial bytes and ends the decode, and leftover
data characters at the end of input raise.  `bytes.decode("utf-8")` is
standard validating UTF-8 (continuation ranges enforced, overlong and
surrogate and out-of-range encodings rejected). -/

/-- Value of a character in the standard base64 alphabet, `none` for
characters outside it (discarded in non-strict mode). -/
def b64Val (c : Char) : Option Nat :=
  if 'A' ≤ c ∧ c ≤ 'Z' then some (c.toNat - 65)
  else if 'a' ≤ c ∧ c ≤ 'z' then some (c.toNat - 97 + 26)
  else if '0' ≤ c ∧ c ≤ '9' then some (c.toNat - 48 + 52)
  else if c = '+' then some 62
  else if c = '/' then some 63
  else none

/-- Three bytes from a full quad of four 6-bit values. -/
def emitFull (quad : List Nat) : List Nat :=
  match quad with
  | [a, b, c, d] => [a * 4 + b / 16, (b % 16) * 16 + c / 4, (c % 4) * 64 + d]
  | _ => []

/-- One or two bytes from a padded quad of two or three 6-bit values. -/
def emitPartial (quad : List Nat) : List Nat :=
  match quad with
  | [a, b] => [a * 4 + b / 16]
  | [a, b, c] => [a * 4 + b / 16, (b % 16) * 16 + c / 4]
  | _ => []

/-- The `binascii.a2b_base64` scan (non-strict): `quad` holds the 6-bit
values of the pending quad, `pads` the pending padding count.  A data
character resets `pads` and extends the quad (a full quad emits three
bytes); an `=` with at least two pending data characters counts toward
padding and, once the quad is complete, emits the partial bytes and
stops; an `=` with fewer than two pending data characters and any
non-alphabet character are discarded; pending data characters at end of
input are an error (`Incorrect padding` / invalid length). -/
def b64Loop : List Char → List Nat → Nat → Option (List Nat)
  | [], quad, _ =>
    match quad with
    | [] => some []
    | _ => none
  | c :: rest, quad, pads =>
    if c = '=' then
      if quad.length ≥ 2 then
        if quad.length + (pads + 1) ≥ 4 then some (emitPartial quad)
        else b64Loop rest quad (pads + 1)
      else b64Loop rest quad pads
    else
      match b64Val c with
      | some v =>
        let quad2 := quad ++ [v]
        if quad2.length = 4 then (b64Loop rest [] 0).map (emitFull quad2 ++ ·)
        else b64Loop rest quad2 0
      | none => b64Loop rest quad pads

/-- `base64.b64decode(s)` on a `str` argument: ASCII-encode (failure on
non-ASCII input), then the non-strict scan; `none` models a raised
`ValueError`/`binascii.Error`. -/
def b64decode (s : String) : Option (List Nat) :=
  if s.data.any (fun c => c.toNat ≥ 128) then none
  else b64Loop s.data [] 0

/-- Whether a byte is a UTF-8 continuation byte. -/
def isCont (b : Nat) : Bool :=
  0x80 ≤ b ∧ b ≤ 0xBF

/-- Validating UTF-8 decode of a byte list (`bytes.decode("utf-8")`);
`none` models a raised `UnicodeDecodeError`. -/
def utf8Decode : List Nat → Option (List Char)
  | [] => some []
  | b :: rest =>
    if b < 0x80 then (utf8Decode rest).map (Char.ofNat b :: ·)
    else if 0xC2 ≤ b ∧ b ≤ 0xDF then
      match rest with
      | b1 :: rest1 =>
        if isCont b1 then
          (utf8Decode rest1).map (Char.ofNat ((b - 0xC0) * 0x40 + (b1 - 0x80)) :: ·)
        else none
      | _ => none
    else if b = 0xE0 then
      match rest with
      | b1 :: b2 :: rest2 =>
        if (0xA0 ≤ b1 ∧ b1 ≤ 0xBF) ∧ isCont b2 then
          (utf8Decode rest2).map
            (Char.ofNat ((b1 - 0x80) * 0x40 + (b2 - 0x80)) :: ·)
        else none
      | _ => none
    else if (0xE1 ≤ b ∧ b ≤ 0xEC) ∨ b = 0xEE ∨ b = 0xEF then
      match rest with
      | b1 :: b2 :: rest2 =>
        if isCont b1 ∧ isCont b2 then
          (utf8Decode rest2).map
            (Char.ofNat ((b - 0xE0) * 0x1000 + (b1 - 0x80) * 0x40 + (b2 - 0x80)) :: ·)
        else none
      | _ => none
    else if b = 0xED then
      match rest with
      | b1 :: b2 :: rest2 =>
        if (0x80 ≤ b1 ∧ b1 ≤ 0x9F) ∧ isCont b2 then
          (utf8Decode rest2).map
            (Char.ofNat (0xD000 + (b1 - 0x80) * 0x40 + (b2 - 0x80)) :: ·)
        else none
      | _ => none
    else if b = 0xF0 then
      match rest with
      | b1 :: b2 :: b3 :: rest3 =>
        if (0x90 ≤ b1 ∧ b1 ≤ 0xBF) ∧ isCont b2 ∧ isCont b3 then
          (utf8Decode rest3).map
            (Char.ofNat ((b1 - 0x80) * 0x1000 + (b2 - 0x80) * 0x40 + (b3 - 0x80)) :: ·)
        else none
      | _ => none
    else if 0xF1 ≤ b ∧ b ≤ 0xF3 then
      match rest with
      | b1 :: b2 :: b3 :: rest3 =>
        if isCont b1 ∧ isCont b2 ∧ isCont b3 then
          (utf8Decode rest3).map
            (Char.ofNat ((b - 0xF0) * 0x40000 + (b1 - 0x80) * 0x1000
              + (b2 - 0x80) * 0x40 + (b3 - 0x80)) :: ·)
        else none
      | _ => none
    else if b = 0xF4 then
      match rest with
      | b1 :: b2 :: b3 :: rest3 =>
        if (0x80 ≤ b1 ∧ b1 ≤ 0x8F) ∧ isCont b2 ∧ isCont b3 then
          (utf8Decode rest3).map
            (Char.ofNat (0x100000 + (b1 - 0x80) * 0x1000
              + (b2 - 0x80) * 0x40 + (b3 - 0x80)) :: ·)
        else none
      | _ => none
    else none

/-- The per-field decode step of `get_lyric` (lines 268-278): try
`base64.b64decode(field).decode("utf-8")`; any exception yields the raw
field text unchanged. -/
def decode_b64_field (s : String) : String :=
  match b64decode s with
  | none => s
  | some bytes =>
    match utf8Decode bytes with
    | none => s
    | some cs => String.mk cs

/-! ## Decoded upstream response shapes

Typed views of the decoded JSON, with one `Option` field per key the
client reads (`none` models an absent key, and a `.getD` models the
default of the corresponding Python `.get(key, default)`; an empty
upstream dictionary is modelled as an absent one, which the client
cannot distinguish through its `.get` chains and falsiness tests). -/

/-- An element of a `singer` array: keys `id`, `mid`, `name`. -/
structure RawSinger where
  id : Option Int := none
  mid : Option String := none
  name : Option String := none
deriving DecidableEq, Repr

/-- A nested `album` object: keys `id`, `mid`, `name`. -/
structure RawAlbumRef where
  id : Option Int := none
  mid : Option String := none
  name : Option String := none
deriving DecidableEq, Repr

/-- A nested `pay` object: key `pay_play`. -/
structure RawPay where
  pay_play : Option Int := none
deriving DecidableEq, Repr

/-- A track item as it appears in search results and playlist song
lists: keys `id`, `mid`, `name`, `album`, `singer`, `interval`, `pay`. -/
structure RawSongItem where
  id : Option Int := none
  mid : Option String := none
  name : Option String := none
  album : Option RawAlbumRef := none
  singer : Option (List RawSinger) := none
  interval : Option Int := none
  pay : Option RawPay := none
deriving DecidableEq, Repr

/-- The `data.song` object of a search response: keys `list`,
`totalnum`. -/
structure RawSongData where
  list : Option (List RawSongItem) := none
  totalnum : Option Int := none
deriving DecidableEq, Repr

/-- The `data` object of a search response: key `song`. -/
structure RawSearchData where
  song : Option RawSongData := none
deriving DecidableEq, Repr

/-- A decoded search response: keys `code`, `data`. -/
structure SearchResp where
  code : Option Int := none
  data : Option RawSearchData := none
deriving DecidableEq, Repr

/-- The `file` object of a track detail: the seven size keys. -/
structure RawFile where
  size_96aac : Option Int := none
  size_128mp3 : Option Int := none
  size_320mp3 : Option Int := none
  size_flac : Option Int := none
  size_ape : Option Int := none
  size_hires : Option Int := none
  size_dolby : Option Int := none
deriving DecidableEq, Repr

/-- The `track_info` object of a track detail: the track-item keys plus
`file`. -/
structure RawTrack where
  id : Option Int := none
  mid : Option String := none
  name : Option String := none
  album : Option RawAlbumRef := none
  singer : Option (List RawSinger) := none
  interval : Option Int := none
  pay : Option RawPay := none
  file : Option RawFile := none
deriving DecidableEq, Repr

/-- The `songinfo.data` object of a track-detail response: key
`track_info` (absent also models the empty object, which the source
rejects with its `if not track` falsiness test). -/
structure RawSongInfoData where
  track_info : Option RawTrack := none
deriving DecidableEq, Repr

/-- The `songinfo` object of a track-detail response: key `data`. -/
structure RawSongInfo where
  data : Option RawSongInfoData := none
deriving DecidableEq, Repr

/-- A decoded track-detail response: keys `code`, `songinfo`. -/
structure DetailResp where
  code : Option Int := none
  songinfo : Option RawSongInfo := none
deriving DecidableEq, Repr

/-- A decoded lyric response: keys `code`, `lyric`, `trans`. -/
structure LyricResp where
  code : Option Int := none
  lyric : Option String := none
  trans : Option String := none
deriving DecidableEq, Repr

/-- An element of `midurlinfo`: keys `purl`, `songmid`, `filesize`. -/
structure MidUrlInfo where
  purl : Option String := none
  songmid : Option String := none
  filesize : Option Int := none
deriving DecidableEq, Repr

/-- The `req_0.data` object of a vkey response: keys `sip`,
`midurlinfo`. -/
structure ReqData where
  sip : Option (List String) := none
  midurlinfo : Option (List MidUrlInfo) := none
deriving DecidableEq, Repr

/-- The `req_0` object of a vkey response: key `data`. -/
structure RawReq0 where
  data : Option ReqData := none
deriving DecidableEq, Repr

/-- A decoded vkey (playback-URL) response: keys `code`, `req_0`. -/
structure SongUrlResp where
  code : Option Int := none
  req_0 : Option RawReq0 := none
deriving DecidableEq, Repr

/-- An element of `cdlist`: keys `dissid`, `dissname`, `logo`, `nick`,
`visitnum`, `songnum`, `songlist`. -/
structure RawCd where
  dissid : Option Int := none
  dissname : Option String := none
  logo : Option String := none
  nick : Option String := none
  visitnum : Option Int := none
  songnum : Option Int := none
  songlist : Option (List RawSongItem) := none
deriving DecidableEq, Repr

/-- A decoded playlist response: keys `code`, `cdlist`. -/
structure PlaylistResp where
  code : Option Int := none
  cdlist : Option (List RawCd) := none
deriving DecidableEq, Repr

/-! ## Catalog operations (`client.py`), response-processing halves -/

/-- The singer-list comprehension shared by search, detail and playlist
mapping (`Singer(singerid=s.get("id", 0), ...)`). -/
def mapSingers (ss : List RawSinger) : List Singer :=
  ss.map (fun s => { id := s.id.getD 0, mid := s.mid.getD "", name := s.name.getD "" })

/-- `client.search` (lines 128-163), after the response is decoded: on
application code other than 0 return `SearchResult(keyword=keyword)`;
otherwise map each item of `data.song.list` onto a `Song` (no `file`)
and assemble the page from `totalnum` and the requested page numbers. -/
def search (keyword : String) (page page_size : Int) (resp : SearchResp) : SearchResult :=
  if resp.code ≠ some 0 then { keyword := keyword }
  else
    let song_data := (resp.data.getD {}).song.getD {}
    let songs := (song_data.list.getD []).map (fun item =>
      ({ id := item.id.getD 0
         mid := item.mid.getD ""
         name := item.name.getD ""
         album_id := (item.album.getD {}).id.getD 0
         album_mid := (item.album.getD {}).mid.getD ""
         album_name := (item.album.getD {}).name.getD ""
         singers := mapSingers (item.singer.getD [])
         duration := item.interval.getD 0
         pay_play := (item.pay.getD {}).pay_play.getD 0 } : Song))
    { keyword := keyword
      total := song_data.totalnum.getD 0
      page := page
      page_size := page_size
      songs := songs }

/-- `client.get_song_detail` (lines 189-230), after the response is
decoded: on application code other than 0, or an absent/empty
`track_info`, return `None`; otherwise build the `Song` with its
`SongFile` ledger read from the `file` object. -/
def get_song_detail (resp : DetailResp) : Option Song :=
  if resp.code ≠ some 0 then none
  else
    match ((resp.songinfo.getD {}).data.getD {}).track_info with
    | none => none
    | some track =>
      let file_info := track.file.getD {}
      let song_file : SongFile :=
        { size_m4a := file_info.size_96aac.getD 0
          size_128 := file_info.size_128mp3.getD 0
          size_320 := file_info.size_320mp3.getD 0
          size_flac := file_info.size_flac.getD 0
          size_ape := file_info.size_ape.getD 0
          size_hires := file_info.size_hires.getD 0
          size_atmos := file_info.size_dolby.getD 0 }
      some
        { id := track.id.getD 0
          mid := track.mid.getD ""
          name := track.name.getD ""
          album_id := (track.album.getD {}).id.getD 0
          album_mid := (track.album.getD {}).mid.getD ""
          album_name := (track.album.getD {}).name.getD ""
          singers := mapSingers (track.singer.getD [])
          duration := track.interval.getD 0
          pay_play := (track.pay.getD {}).pay_play.getD 0
          file := some song_file }

/-- `client.get_lyric` (lines 257-280), after the response is decoded:
on application code other than 0 return an empty `Lyric()`; otherwise
each of `lyric` and `trans` defaults to "" and, when non-empty (truthy),
is decoded by the try/except base64 + UTF-8 step. -/
def get_lyric (resp : LyricResp) : Lyric :=
  if resp.code ≠ some 0 then {}
  else
    let lyric_b64 := resp.lyric.getD ""
    let trans_b64 := resp.trans.getD ""
    { lyric := if lyric_b64 ≠ "" then decode_b64_field lyric_b64 else ""
      trans := if trans_b64 ≠ "" then decode_b64_field trans_b64 else "" }

/-- The `req_data` local of `get_song_url` (line 345):
`result.get("req_0", (empty)).get("data", (empty))`. -/
def reqDataOf (resp : SongUrlResp) : ReqData :=
  (resp.req_0.getD {}).data.getD {}

/-- The `for info in midurlinfo` loop of `get_song_url` (lines 349-364),
appending one locator per entry to the accumulator `urls`: a truthy
(non-empty) `purl` yields the shared prefix concatenated with the
fragment, the requested quality and the reported `filesize`; otherwise
`SongUrl(mid=mid, quality=quality)` with default url "" and size 0. -/
def songUrlLoop (quality sip : String) : List MidUrlInfo → List SongUrl → List SongUrl
  | [], urls => urls
  | info :: rest, urls =>
    let purl := info.purl.getD ""
    let mid := info.songmid.getD ""
    let u : SongUrl :=
      if purl ≠ "" then
        { mid := mid, url := sip ++ purl, quality := quality, size := info.filesize.getD 0 }
      else
        { mid := mid, quality := quality }
    songUrlLoop quality sip rest (urls ++ [u])

/-- `client.get_song_url` (lines 340-365), after the response is
decoded: on application code other than 0 return the empty list;
otherwise take `sip = req_data.get("sip", [""])[0]` — the unguarded
`[0]` raises `IndexError` on an empty list, modelled as `none` for the
whole call — and run the locator loop over
`req_data.get("midurlinfo", [])`.  (The request half of the operation
is `buildFilenames` above plus I/O-side parameters.) -/
def get_song_url (quality : String) (resp : SongUrlResp) : Option (List SongUrl) :=
  if resp.code ≠ some 0 then some []
  else
    let req_data := reqDataOf resp
    match (req_data.sip.getD [""]).head? with
    | none => none
    | some sip =>
      let midurlinfo := req_data.midurlinfo.getD []
      some (songUrlLoop quality sip midurlinfo [])

/-- `client.get_playlist_detail` (lines 488-530), after the response is
decoded: on application code other than 0, or an empty `cdlist`, return
`(None, [])`; otherwise build the `Playlist` from `cdlist[0]` and map
its `songlist` onto `Song`s (no `pay_play`, no `file`). -/
def get_playlist_detail (resp : PlaylistResp) : Option Playlist × List Song :=
  if resp.code ≠ some 0 then (none, [])
  else
    match resp.cdlist.getD [] with
    | [] => (none, [])
    | cd :: _ =>
      let playlist : Playlist :=
        { id := cd.dissid.getD 0
          name := cd.dissname.getD ""
          cover := cd.logo.getD ""
          creator := cd.nick.getD ""
          listen_count := cd.visitnum.getD 0
          song_count := cd.songnum.getD 0 }
      let songs := (cd.songlist.getD []).map (fun item =>
        ({ id := item.id.getD 0
           mid := item.mid.getD ""
           name := item.name.getD ""
           album_id := (item.album.getD {}).id.getD 0
           album_mid := (item.album.getD {}).mid.getD ""
           album_name := (item.album.getD {}).name.getD ""
           singers := mapSingers (item.singer.getD [])
           duration := item.interval.getD 0 } : Song))
      (some playlist, songs)

/-! ## Spec-side definitions (for refinement comparisons)

`availableQualitiesSpec` follows the spec's words ("for each of the
seven tiers, include it in the output list, in the fixed order m4a,
128, 320, flac, ape, hires, atmos, iff its recorded size > 0"), to be
compared with the source-derived `SongFile.available_qualities`. -/

/-- The spec's fixed tier order. -/
def tierOrderSpec : List String :=
  ["m4a", "128", "320", "flac", "ape", "hires", "atmos"]

/-- The recorded size of a named tier in a quality ledger. -/
def tierSize (f : SongFile) : String → Int
  | "m4a" => f.size_m4a
  | "128" => f.size_128
  | "320" => f.size_320
  | "flac" => f.size_flac
  | "ape" => f.size_ape
  | "hires" => f.size_hires
  | "atmos" => f.size_atmos
  | _ => 0

/-- Availability reporting as the spec words it: the fixed tier order
restricted to tiers with strictly positive recorded size. -/
def availableQualitiesSpec (f : SongFile) : List String :=
  tierOrderSpec.filter (fun t => decide (tierSize f t > 0))

/-! ## Helper lemmas -/

/-- The locator built for one `midurlinfo` entry (the loop body of
`get_song_url`, written as a function for stating list-level facts). -/
def mkLocator (quality sip : String) (info : MidUrlInfo) : SongUrl :=
  if info.purl.getD "" ≠ "" then
    { mid := info.songmid.getD "", url := sip ++ info.purl.getD "",
      quality := quality, size := info.filesize.getD 0 }
  else
    { mid := info.songmid.getD "", url := "", quality := quality, size := 0 }

/-- The accumulator loop of `get_song_url` appends exactly one locator
per entry, in response order. -/
theorem songUrlLoop_eq_map (quality sip : String) (infos : List MidUrlInfo) :
    ∀ urls : List SongUrl,
      songUrlLoop quality sip infos urls = urls ++ infos.map (mkLocator quality sip) := by
  induction infos with
  | nil => intro urls; simp [songUrlLoop]
  | cons info rest ih =>
    intro urls
    simp only [songUrlLoop, List.map_cons, ih, List.append_assoc]
    by_cases h : info.purl.getD "" ≠ "" <;>
      simp [mkLocator, h]

/-- Looking up a key absent from the quality table yields `none`. -/
theorem lookup_unknown_tier (q : String) (h : q ∉ QUALITY_TYPE.map Prod.fst) :
    QUALITY_TYPE.lookup q = none := by
  simp only [QUALITY_TYPE, List.map, List.mem_cons, not_or] at h
  obtain ⟨h1, h2, h3, h4, h5, h6, h7, _⟩ := h
  simp [QUALITY_TYPE, List.lookup, beq_eq_false_iff_ne.mpr h1,
    beq_eq_false_iff_ne.mpr h2, beq_eq_false_iff_ne.mpr h3,
    beq_eq_false_iff_ne.mpr h4, beq_eq_false_iff_ne.mpr h5,
    beq_eq_false_iff_ne.mpr h6, beq_eq_false_iff_ne.mpr h7]

/-! ## Claims -/

/-- Claim C1: for every list of track identifiers and every quality
tier, `get_song_url` synthesizes, for each identifier in order, the
candidate upstream filename as the tier's resolved prefix, then the
identifier twice, then a dot and the tier's extension; in particular
for identifiers [A, B] and tier flac the filenames are F000AA.flac and
F000BB.flac. -/
theorem filenames_synthesis :
    (∀ (q : String) (mids : List String),
        buildFilenames q mids
          = mids.map (fun mid =>
              (resolveQuality q).pfx ++ mid ++ mid ++ "." ++ (resolveQuality q).ext))
    ∧ resolveQuality "flac" = ⟨"F000", "flac"⟩
    ∧ buildFilenames "flac" ["A", "B"] = ["F000AA.flac", "F000BB.flac"] :=
  ⟨fun _ _ => rfl, rfl, by decide⟩

/-- Claim C4: `available_qualities` returns exactly the tiers whose
recorded byte size is strictly positive, always in the fixed order
[m4a, 128, 320, flac, ape, hires, atmos]; it is a pure function of the
ledger's seven size fields. -/
theorem available_qualities_order (f : SongFile) :
    f.available_qualities = availableQualitiesSpec f := by
  by_cases h1 : f.size_m4a > 0 <;> by_cases h2 : f.size_128 > 0 <;>
    by_cases h3 : f.size_320 > 0 <;> by_cases h4 : f.size_flac > 0 <;>
    by_cases h5 : f.size_ape > 0 <;> by_cases h6 : f.size_hires > 0 <;>
    by_cases h7 : f.size_atmos > 0 <;>
    simp [SongFile.available_qualities, availableQualitiesSpec, tierOrderSpec,
      tierSize, List.filter, h1, h2, h3, h4, h5, h6, h7]

/-- Claim C9: for every record identifier and pixel size,
`get_album_cover` is pure string formatting producing
`https://y.qq.com/music/photo_new/T002R(size)x(size)M000(mid).jpg`
with the size substituted twice and the identifier once; with no size
supplied, 300 is used. -/
theorem album_cover_formatting (album_mid : String) (size : Int) :
    get_album_cover album_mid size
        = "https://y.qq.com/music/photo_new/T002R" ++ toString size ++ "x"
            ++ toString size ++ "M000" ++ album_mid ++ ".jpg"
      ∧ get_album_cover album_mid = get_album_cover album_mid 300
      ∧ get_album_cover "X" = "https://y.qq.com/music/photo_new/T002R300x300M000X.jpg" :=
  ⟨rfl, rfl, by decide⟩

/-- Claim C8 (counterexample): not every entity field defaults to an
empty value — `Song.file` defaults to the absent marker `None`, and
`SearchResult.page` and `page_size` default to 1 and 20, not 0. -/
theorem entity_defaults_counterexample :
    ({} : Song).file = none
      ∧ ({} : SearchResult).page = 1
      ∧ ({} : SearchResult).page_size = 20 :=
  ⟨rfl, rfl, rfl⟩

/-- Claim C8 (amended): every field of every domain entity has a
declared default, so no field is ever missing; the defaults are the
empty values (0 for numbers, "" for strings, [] for lists) except that
`SearchResult.page` defaults to 1, `SearchResult.page_size` to 20, and
`Song.file` to absent (`None`) — and availability reporting branches on
that field's presence, yielding [] for the default song. -/
theorem entity_defaults :
    ({} : Singer) = ⟨0, "", ""⟩
      ∧ ({} : SongFile) = ⟨0, 0, 0, 0, 0, 0, 0⟩
      ∧ ({} : Song) = ⟨0, "", "", 0, "", "", [], 0, 0, none⟩
      ∧ ({} : Album) = ⟨0, "", "", [], "", "", 0⟩
      ∧ ({} : Playlist) = ⟨0, "", "", "", 0, 0⟩
      ∧ ({} : MV) = ⟨"", "", [], "", 0, 0⟩
      ∧ ({} : Lyric) = ⟨"", ""⟩
      ∧ ({} : SearchResult) = ⟨"", 0, 1, 20, []⟩
      ∧ ({} : SongUrl) = ⟨"", "", "", 0⟩
      ∧ Song.available_qualities {} = [] :=
  ⟨rfl, rfl, rfl, rfl, rfl, rfl, rfl, rfl, rfl, rfl⟩

/-- Claim C3: for every operation and every decoded response whose
application status field is non-zero, the operation returns its defined
empty/not-found value and never raises: search an empty page echoing
the keyword, track detail `None`, lyric an empty pair, playback URLs
the empty list, and playlist detail the `(None, [])` pair. -/
theorem soft_failure_returns (c : Int) (hc : c ≠ 0)
    (keyword : String) (page page_size : Int) (quality : String)
    (r1 : SearchResp) (r2 : DetailResp) (r3 : LyricResp)
    (r4 : SongUrlResp) (r5 : PlaylistResp)
    (h1 : r1.code = some c) (h2 : r2.code = some c) (h3 : r3.code = some c)
    (h4 : r4.code = some c) (h5 : r5.code = some c) :
    search keyword page page_size r1 = { keyword := keyword }
      ∧ get_song_detail r2 = none
      ∧ get_lyric r3 = {}
      ∧ get_song_url quality r4 = some []
      ∧ get_playlist_detail r5 = (none, []) := by
  refine ⟨?_, ?_, ?_, ?_, ?_⟩ <;>
    simp [search, get_song_detail, get_lyric, get_song_url, get_playlist_detail,
      h1, h2, h3, h4, h5, hc]

/-- Concrete soft-failure instance: upstream code 1 for every
operation (in particular track detail of "anymid" is absent). -/
theorem soft_failure_returns_witness :
    search "anymid" 1 20 { code := some 1 } = { keyword := "anymid" }
      ∧ get_song_detail { code := some 1 } = none
      ∧ get_lyric { code := some 1 } = {}
      ∧ get_song_url "128" { code := some 1 } = some []
      ∧ get_playlist_detail { code := some 1 } = (none, []) :=
  soft_failure_returns 1 (by decide) "anymid" 1 20 "128"
    { code := some 1 } { code := some 1 } { code := some 1 }
    { code := some 1 } { code := some 1 } rfl rfl rfl rfl rfl

/-- Claim C2: for every decoded batch playback response with
application status 0 (and a successfully extracted shared prefix),
`get_song_url` emits one locator per `midurlinfo` entry, in response
order: a non-empty `purl` yields the shared prefix concatenated with
the fragment, the requested tier and the reported size; an empty or
absent `purl` still yields a locator, with empty URL and size 0, and
the whole call succeeds. -/
theorem song_url_locators (quality : String) (r : SongUrlResp) (s : String)
    (hcode : r.code = some 0)
    (hsip : ((reqDataOf r).sip.getD [""]).head? = some s) :
    get_song_url quality r
      = some (((reqDataOf r).midurlinfo.getD []).map (fun info =>
          if info.purl.getD "" ≠ "" then
            { mid := info.songmid.getD "", url := s ++ info.purl.getD "",
              quality := quality, size := info.filesize.getD 0 }
          else
            { mid := info.songmid.getD "", url := "", quality := quality,
              size := 0 })) := by
  simp [get_song_url, hcode, hsip, songUrlLoop_eq_map, mkLocator]

/-- The response shape of the spec's batch partial-gap scenario: a path
fragment for track X only, none for track Y. -/
def respTwoTracks : SongUrlResp :=
  { code := some 0,
    req_0 := some ⟨some ⟨some ["http://host/"],
      some [⟨some "pX", some "X", some 7⟩, ⟨some "", some "Y", none⟩]⟩⟩ }

/-- Concrete batch partial-gap instance: two locators come back, X with
the concatenated URL and its size, Y present but empty with size 0. -/
theorem song_url_locators_witness :
    get_song_url "flac" respTwoTracks
      = some [{ mid := "X", url := "http://host/pX", quality := "flac", size := 7 },
              { mid := "Y", url := "", quality := "flac", size := 0 }] := by
  have h := song_url_locators "flac" respTwoTracks "http://host/" rfl rfl
  rw [h]
  decide

/-- Claim C10: with application status 0, the shared-prefix extraction
`req_data.get("sip", [""])[0]` is unguarded, so the call raises an
indexing error exactly when the `sip` key is present and bound to an
empty list (the default [""] is used only when the key is absent). -/
theorem sip_extraction_safety (quality : String) (r : SongUrlResp)
    (hcode : r.code = some 0) :
    get_song_url quality r = none ↔ (reqDataOf r).sip = some [] := by
  unfold get_song_url
  cases hsip : (reqDataOf r).sip with
  | none => simp [hcode, hsip]
  | some l =>
    cases l with
    | nil => simp [hcode, hsip]
    | cons a t => simp [hcode, hsip]

/-- A status-0 response whose `sip` key holds an empty list. -/
def respEmptySip : SongUrlResp :=
  { code := some 0,
    req_0 := some ⟨some ⟨some [], some []⟩⟩ }

/-- Concrete empty-`sip` instance: the call fails with the modelled
indexing error instead of returning locators. -/
theorem sip_extraction_safety_witness :
    get_song_url "128" respEmptySip = none :=
  (sip_extraction_safety "128" respEmptySip rfl).mpr rfl

/-- Updating only the quality label of a built locator relabels it to
the other tier's locator. -/
theorem mkLocator_quality (q q2 s : String) (info : MidUrlInfo) :
    { mkLocator q2 s info with quality := q } = mkLocator q s info := by
  by_cases h : info.purl.getD "" ≠ "" <;> simp [mkLocator, h]

/-- A status-0 response carrying one resolvable track. -/
def respOneTrack : SongUrlResp :=
  { code := some 0,
    req_0 := some ⟨some ⟨some ["S/"], some [⟨some "p", some "A", some 5⟩]⟩⟩ }

/-- Claim C5 (counterexample): for the unknown tier "ultra" the
resolution does fall back to the 128 pair, but the operation does NOT
behave identically to being called with tier 128 — on the same decoded
response the returned locators differ (their quality field echoes
"ultra", not "128"). -/
theorem unknown_tier_counterexample :
    resolveQuality "ultra" = resolveQuality "128"
      ∧ get_song_url "ultra" respOneTrack ≠ get_song_url "128" respOneTrack :=
  ⟨by decide, by decide⟩

/-- Claim C5 (amended): for every quality tier name outside the known
set, resolution in `get_song_url` yields exactly the 128 tier's
prefix/extension pair (so the synthesized filenames, hence the upstream
request, are identical to tier 128); the returned locators agree with
those of tier 128 except that their quality field echoes the requested
tier name. -/
theorem unknown_tier_fallback (q : String) (h : q ∉ QUALITY_TYPE.map Prod.fst) :
    resolveQuality q = resolveQuality "128"
      ∧ (∀ mids, buildFilenames q mids = buildFilenames "128" mids)
      ∧ ∀ r : SongUrlResp,
          get_song_url q r
            = (get_song_url "128" r).map
                (List.map (fun u => { u with quality := q })) := by
  have hq : resolveQuality q = resolveQuality "128" := by
    rw [resolveQuality, lookup_unknown_tier q h]
    rfl
  refine ⟨hq, fun mids => by simp [buildFilenames, hq], fun r => ?_⟩
  unfold get_song_url
  by_cases hc : r.code ≠ some 0
  · simp [hc]
  · cases hsip : ((reqDataOf r).sip.getD [""]).head? with
    | none => simp [hc, hsip]
    | some s =>
      simp only [hc, if_false, hsip, Option.map_some]
      simp [songUrlLoop_eq_map, List.map_map, Function.comp_def, mkLocator_quality]

/-- Concrete unknown-tier instance: "ultra" resolves, builds filenames
and processes a response exactly as "128" does, up to the echoed
quality label. -/
theorem unknown_tier_fallback_witness :
    "ultra" ∉ QUALITY_TYPE.map Prod.fst
      ∧ resolveQuality "ultra" = resolveQuality "128"
      ∧ buildFilenames "ultra" ["A"] = buildFilenames "128" ["A"]
      ∧ get_song_url "ultra" respOneTrack
          = (get_song_url "128" respOneTrack).map
              (List.map (fun u => { u with quality := "ultra" })) :=
  ⟨by decide, (unknown_tier_fallback "ultra" (by decide)).1,
    (unknown_tier_fallback "ultra" (by decide)).2.1 ["A"],
    (unknown_tier_fallback "ultra" (by decide)).2.2 respOneTrack⟩

/-- Claim C6: for every lyric response with application status 0, each
of the lyric and translation fields, when non-empty, is base64-decoded
to a UTF-8 string; if that decoding fails for a field, the raw text of
that field is returned unchanged instead of raising; an empty or absent
field yields the empty string; in particular the base64 encoding of
"hello" decodes to "hello", while a malformed base64 text and a
non-UTF-8 payload pass through unchanged. -/
theorem lyric_decode_policy (r : LyricResp) (hcode : r.code = some 0) :
    ((r.lyric.getD "" = "" → (get_lyric r).lyric = "")
      ∧ (∀ s bs cs, r.lyric = some s → b64decode s = some bs →
          utf8Decode bs = some cs → (get_lyric r).lyric = String.mk cs)
      ∧ (∀ s, r.lyric = some s → (b64decode s).bind utf8Decode = none →
          (get_lyric r).lyric = s))
    ∧ ((r.trans.getD "" = "" → (get_lyric r).trans = "")
      ∧ (∀ s bs cs, r.trans = some s → b64decode s = some bs →
          utf8Decode bs = some cs → (get_lyric r).trans = String.mk cs)
      ∧ (∀ s, r.trans = some s → (b64decode s).bind utf8Decode = none →
          (get_lyric r).trans = s))
    ∧ decode_b64_field "aGVsbG8=" = "hello"
    ∧ decode_b64_field "!b@d" = "!b@d"
    ∧ decode_b64_field "/w==" = "/w==" := by
  refine ⟨⟨?_, ?_, ?_⟩, ⟨?_, ?_, ?_⟩, by decide, by decide, by decide⟩
  · intro hget
    simp [get_lyric, hcode, hget]
  · intro s bs cs hs hb hu
    by_cases hse : s = ""
    · subst hse
      have hbs : bs = [] := by
        have : (some [] : Option (List Nat)) = some bs := by
          rw [← hb]; rfl
        simpa using this.symm
      subst hbs
      have hcs : cs = [] := by
        have h0 : (some [] : Option (List Char)) = some cs := by rw [← hu]; rfl
        simpa using h0.symm
      subst hcs
      simp [get_lyric, hcode, hs]
    · simp [get_lyric, hcode, hs, hse, decode_b64_field, hb, hu]
  · intro s hs hnone
    by_cases hse : s = ""
    · subst hse
      have : (b64decode "").bind utf8Decode = some [] := by rfl
      rw [this] at hnone
      exact absurd hnone (by simp)
    · cases hb : b64decode s with
      | none => simp [get_lyric, hcode, hs, hse, decode_b64_field, hb]
      | some bs =>
        rw [hb, Option.some_bind] at hnone
        simp [get_lyric, hcode, hs, hse, decode_b64_field, hb, hnone]
  · intro hget
    simp [get_lyric, hcode, hget]
  · intro s bs cs hs hb hu
    by_cases hse : s = ""
    · subst hse
      have hbs : bs = [] := by
        have : (some [] : Option (List Nat)) = some bs := by
          rw [← hb]; rfl
        simpa using this.symm
      subst hbs
      have hcs : cs = [] := by
        have h0 : (some [] : Option (List Char)) = some cs := by rw [← hu]; rfl
        simpa using h0.symm
      subst hcs
      simp [get_lyric, hcode, hs]
    · simp [get_lyric, hcode, hs, hse, decode_b64_field, hb, hu]
  · intro s hs hnone
    by_cases hse : s = ""
    · subst hse
      have : (b64decode "").bind utf8Decode = some [] := by rfl
      rw [this] at hnone
      exact absurd hnone (by simp)
    · cases hb : b64decode s with
      | none => simp [get_lyric, hcode, hs, hse, decode_b64_field, hb]
      | some bs =>
        rw [hb, Option.some_bind] at hnone
        simp [get_lyric, hcode, hs, hse, decode_b64_field, hb, hnone]

/-- A status-0 lyric response carrying the base64 encoding of "hello"
and a malformed translation field. -/
def lyricRespEx : LyricResp :=
  { code := some 0, lyric := some "aGVsbG8=", trans := some "!b@d" }

/-- Concrete lyric-decode instance: the base64 field decodes to
"hello", the malformed field passes through unchanged. -/
theorem lyric_decode_policy_witness :
    (get_lyric lyricRespEx).lyric = "hello"
      ∧ (get_lyric lyricRespEx).trans = "!b@d" := by
  have h := lyric_decode_policy lyricRespEx rfl
  refine ⟨(h.1.2.1 "aGVsbG8=" [104, 101, 108, 108, 111] "hello".data rfl
    (by decide) (by decide)).trans (by decide), ?_⟩
  exact h.2.1.2.2 "!b@d" rfl (by decide)

/-- Claim C7: response decoding unwraps a JSONP wrapper only when the
text begins with one of the two callback markers, extracting the first
parenthesized brace-delimited group with a match spanning embedded
newlines; on plain text with no wrapper the decoding is the identity
(so unwrapping is idempotent on already-unwrapped text). -/
theorem jsonp_unwrap_identity :
    (∀ t : String, startsWith t "callback(" = false →
        startsWith t "MusicJsonCallback(" = false → jsonp_unwrap t = t)
    ∧ jsonp_unwrap "callback(\x7b\"a\":\n1\x7d)" = "\x7b\"a\":\n1\x7d"
    ∧ jsonp_unwrap "MusicJsonCallback(\x7b\"b\":[1,2]\x7d);" = "\x7b\"b\":[1,2]\x7d" := by
  refine ⟨fun t h1 h2 => ?_, by decide, by decide⟩
  simp [jsonp_unwrap, h1, h2]

/-- Concrete plain-JSON instance: text with no wrapper is left
untouched by the unwrapping step. -/
theorem jsonp_unwrap_identity_witness :
    jsonp_unwrap "\x7b\"x\":1\x7d" = "\x7b\"x\":1\x7d" :=
  jsonp_unwrap_identity.1 "\x7b\"x\":1\x7d" (by decide) (by decide)
